import Mathlib

set_option autoImplicit false

/-!
Verification development for the AIOps topology-snapshot engine
(version00: `graph/feed_snapshot.py`, `graph/network_fetch.py`,
`agents/snapshot_manager.py`, `agents/query_agent.py`, `agents/prompts.py`,
`collectors/base.py`, `collectors/switch_collector.py`).

The Python code is shallowly embedded: dict/list state becomes association
lists, Neo4j `MERGE ... SET` becomes a keyed upsert, Cypher `CREATE` becomes
an append, Cypher `MATCH ... DELETE` becomes a filter (the Neo4j
referential-integrity error raised when a node with remaining relationships
is deleted is not modelled), and Python exceptions become `Except`.
Python string operations (`split`, `replace`, `in`, `strip`, `splitlines`)
are re-implemented over `List Char` so that every definition is executable
and kernel-reducible.
-/

namespace AIOps

/-! ## String helpers (Python `str` operations) -/

/-- Whitespace as recognised by Python `str.strip` and `\s`. -/
def isWS (c : Char) : Bool :=
  c = ' ' || c = '\t' || c = '\r' || c = '\n' || c = '\x0b' || c = '\x0c'

/-- `leadsL p l` : the char list `p` is an initial segment of `l`. -/
def leadsL : List Char → List Char → Bool
  | [], _ => true
  | _ :: _, [] => false
  | p :: ps, c :: cs => p = c && leadsL ps cs

/-- Worker for `splitOnS`, fuelled to stay structurally recursive. -/
def splitGo (sep : List Char) : Nat → List Char → List Char → List (List Char)
  | 0, rem, cur => [cur.reverse ++ rem]
  | _ + 1, [], cur => [cur.reverse]
  | fuel + 1, c :: rest, cur =>
    if leadsL sep (c :: rest) then
      cur.reverse :: splitGo sep fuel ((c :: rest).drop sep.length) []
    else
      splitGo sep fuel rest (c :: cur)

/-- Python `s.split(sep)` for a non-empty separator (`"".split(sep) = [""]`). -/
def splitOnS (s sep : String) : List String :=
  if sep.data.isEmpty then [s]
  else (splitGo sep.data (s.data.length + 1) s.data []).map String.mk

/-- Python `s.replace(pat, rep)` (identity for an empty pattern, which the
code never uses). -/
def replaceS (s pat rep : String) : String :=
  if pat.data.isEmpty then s else String.intercalate rep (splitOnS s pat)

/-- Python `pat in s` (substring containment) for a non-empty pattern. -/
def containsSub (s pat : String) : Bool :=
  (splitOnS s pat).length != 1

/-- Python `s.startswith(pat)`. -/
def startsWithS (s pat : String) : Bool :=
  leadsL pat.data s.data

/-- Python `s.endswith(pat)`. -/
def endsWithS (s pat : String) : Bool :=
  leadsL pat.data.reverse s.data.reverse

/-- Python `s.strip()`. -/
def stripS (s : String) : String :=
  String.mk (((s.data.dropWhile isWS).reverse.dropWhile isWS).reverse)

/-- Python `s.splitlines()` (modelled on `\n` separators only; the raw
captures fed to the parsers are newline-separated). -/
def linesOf (s : String) : List String :=
  splitOnS s "\n"

/-- Worker for `wordsOf`. -/
def wordsGo : List Char → List Char → List String
  | [], cur => if cur.isEmpty then [] else [String.mk cur.reverse]
  | c :: cs, cur =>
    if isWS c then
      if cur.isEmpty then wordsGo cs []
      else String.mk cur.reverse :: wordsGo cs []
    else wordsGo cs (c :: cur)

/-- Split a line into maximal runs of non-whitespace, the token view a
`\S+ \s+ ...` regular expression induces on a line. -/
def wordsOf (s : String) : List String :=
  wordsGo s.data []

/-- Rejoin tokens with single spaces (used where a regex captured a
`.+?` group spanning several tokens). -/
def joinSpace (l : List String) : String :=
  String.intercalate " " l

/-- All characters are decimal digits and the token is non-empty. -/
def isDigits (s : String) : Bool :=
  !s.data.isEmpty && s.data.all Char.isDigit

/-- A dotted quad `\d+\.\d+\.\d+\.\d+`. -/
def isDottedQuad (s : String) : Bool :=
  (splitOnS s ".").length = 4 && (splitOnS s ".").all isDigits

/-- A hexadecimal digit. -/
def isHexCh (c : Char) : Bool :=
  c.isDigit || ('a' ≤ c && c ≤ 'f') || ('A' ≤ c && c ≤ 'F')

/-- A MAC token `hhhh.hhhh.hhhh`. -/
def isMacTok (s : String) : Bool :=
  (splitOnS s ".").length = 3 &&
    (splitOnS s ".").all (fun p => p.data.length = 4 && p.data.all isHexCh)

/-- Python `s.upper()`. -/
def toUpperS (s : String) : String :=
  String.mk (s.data.map Char.toUpper)

/-! ## Keyed collections (Python dicts / Neo4j `MERGE` by natural key) -/

/-- Does the association list contain the key? -/
def hasKey {K V : Type} [DecidableEq K] (l : List (K × V)) (k : K) : Bool :=
  l.any (fun kv => kv.1 = k)

/-- First value stored under the key (Python `dict.get`). -/
def lookupA {K V : Type} [DecidableEq K] (l : List (K × V)) (k : K) : Option V :=
  (l.find? (fun kv => kv.1 = k)).map (·.2)

/-- Neo4j `MERGE` keyed by a natural key followed by `SET`: update the
existing entry in place, else append a fresh one. -/
def upsertA {K V : Type} [DecidableEq K] (k : K) (f : Option V → V)
    (l : List (K × V)) : List (K × V) :=
  if l.any (fun kv => kv.1 = k) then
    l.map (fun kv => if kv.1 = k then (k, f (some kv.2)) else kv)
  else l ++ [(k, f none)]

/-- Apply a sequence of keyed writes in order. -/
def applyWrites {K V : Type} [DecidableEq K] (l : List (K × V))
    (ws : List (K × (Option V → V))) : List (K × V) :=
  ws.foldl (fun acc w => upsertA w.1 w.2 acc) l

theorem hasKey_upsertA {K V : Type} [DecidableEq K] (k k' : K)
    (f : Option V → V) (l : List (K × V)) :
    hasKey (upsertA k f l) k' = true ↔ (hasKey l k' = true ∨ k' = k) := by
  unfold upsertA hasKey
  by_cases h : l.any (fun kv => kv.1 = k) = true
  · rw [if_pos h]
    simp only [List.any_eq_true, List.mem_map, decide_eq_true_eq]
    constructor
    · rintro ⟨y, ⟨x, hx, rfl⟩, hy⟩
      by_cases hxk : x.1 = k
      · simp only [hxk, if_true] at hy
        exact Or.inr hy.symm
      · simp only [hxk, if_false] at hy
        exact Or.inl ⟨x, hx, hy⟩
    · rintro (⟨x, hx, hx'⟩ | h2)
      · by_cases hxk : x.1 = k
        · exact ⟨(k, f (some x.2)), ⟨x, hx, by simp [hxk]⟩, hxk ▸ hx'⟩
        · exact ⟨x, ⟨x, hx, by simp [hxk]⟩, hx'⟩
      · subst h2
        obtain ⟨x, hx, hxk⟩ := List.any_eq_true.mp h
        simp only [decide_eq_true_eq] at hxk
        exact ⟨(k', f (some x.2)), ⟨x, hx, by simp [hxk]⟩, rfl⟩
  · rw [if_neg h]
    simp only [List.any_append, List.any_cons, List.any_nil, Bool.or_false,
      Bool.or_eq_true, List.any_eq_true, decide_eq_true_eq]
    constructor
    · rintro (hh | hh)
      · exact Or.inl hh
      · exact Or.inr hh.symm
    · rintro (hh | hh)
      · exact Or.inl hh
      · exact Or.inr hh.symm

theorem length_upsertA {K V : Type} [DecidableEq K] (k : K)
    (f : Option V → V) (l : List (K × V)) :
    (upsertA k f l).length =
      if l.any (fun kv => kv.1 = k) then l.length else l.length + 1 := by
  unfold upsertA
  by_cases h : l.any (fun kv => kv.1 = k) <;> simp [h]

theorem length_upsertA_of_hasKey {K V : Type} [DecidableEq K] (k : K)
    (f : Option V → V) (l : List (K × V)) (h : hasKey l k = true) :
    (upsertA k f l).length = l.length := by
  rw [length_upsertA]
  unfold hasKey at h
  simp [h]

theorem hasKey_applyWrites {K V : Type} [DecidableEq K]
    (l : List (K × V)) (ws : List (K × (Option V → V))) (k : K) :
    hasKey (applyWrites l ws) k = true ↔
      (hasKey l k = true ∨ ∃ w ∈ ws, w.1 = k) := by
  induction ws generalizing l with
  | nil => simp [applyWrites]
  | cons w t ih =>
    simp only [applyWrites, List.foldl_cons] at *
    rw [ih (upsertA w.1 w.2 l)]
    constructor
    · rintro (hh | hh)
      · rcases (hasKey_upsertA w.1 k w.2 l).mp hh with h1 | h1
        · exact Or.inl h1
        · exact Or.inr ⟨w, List.mem_cons_self _ _, h1.symm⟩
      · obtain ⟨x, hx, hx'⟩ := hh
        exact Or.inr ⟨x, List.mem_cons_of_mem _ hx, hx'⟩
    · rintro (hh | ⟨x, hx, hx'⟩)
      · exact Or.inl ((hasKey_upsertA w.1 k w.2 l).mpr (Or.inl hh))
      · rcases List.mem_cons.mp hx with rfl | hx2
        · exact Or.inl ((hasKey_upsertA x.1 k x.2 l).mpr (Or.inr hx'.symm))
        · exact Or.inr ⟨x, hx2, hx'⟩

theorem length_applyWrites {K V : Type} [DecidableEq K]
    (l : List (K × V)) (ws : List (K × (Option V → V)))
    (h : ∀ w ∈ ws, hasKey l w.1 = true) :
    (applyWrites l ws).length = l.length := by
  induction ws generalizing l with
  | nil => simp [applyWrites]
  | cons w t ih =>
    simp only [applyWrites, List.foldl_cons]
    have h1 : hasKey l w.1 = true := h w (List.mem_cons_self _ _)
    have h2 : ∀ x ∈ t, hasKey (upsertA w.1 w.2 l) x.1 = true := by
      intro x hx
      exact (hasKey_upsertA w.1 x.1 w.2 l).mpr
        (Or.inl (h x (List.mem_cons_of_mem _ hx)))
    calc (applyWrites (upsertA w.1 w.2 l) t).length
        = (upsertA w.1 w.2 l).length := ih _ h2
      _ = l.length := length_upsertA_of_hasKey w.1 w.2 l h1

theorem mem_upsertA {K V : Type} [DecidableEq K] (k : K)
    (f : Option V → V) (l : List (K × V)) (kv : K × V)
    (h : kv ∈ upsertA k f l) :
    kv ∈ l ∨ (kv.1 = k ∧ ∃ o, kv.2 = f o) := by
  unfold upsertA at h
  by_cases hc : l.any (fun kv => kv.1 = k) = true
  · rw [if_pos hc] at h
    simp only [List.mem_map] at h
    obtain ⟨x, hx, rfl⟩ := h
    by_cases hxk : x.1 = k
    · refine Or.inr ⟨?_, some x.2, ?_⟩ <;> simp [hxk]
    · simp only [hxk, if_false]
      exact Or.inl hx
  · rw [if_neg hc] at h
    rcases List.mem_append.mp h with h1 | h1
    · exact Or.inl h1
    · have h2 : kv = (k, f none) := List.mem_singleton.mp h1
      rw [h2]
      exact Or.inr ⟨rfl, none, rfl⟩

theorem mem_applyWrites {K V : Type} [DecidableEq K]
    (l : List (K × V)) (ws : List (K × (Option V → V))) (kv : K × V)
    (h : kv ∈ applyWrites l ws) :
    kv ∈ l ∨ ∃ w ∈ ws, w.1 = kv.1 ∧ ∃ o, kv.2 = w.2 o := by
  induction ws generalizing l with
  | nil => exact Or.inl (by simpa [applyWrites] using h)
  | cons w t ih =>
    simp only [applyWrites, List.foldl_cons] at h
    rcases ih (upsertA w.1 w.2 l) h with h1 | ⟨x, hx, hx1, o, ho⟩
    · rcases mem_upsertA w.1 w.2 l kv h1 with h2 | ⟨hk, o, ho⟩
      · exact Or.inl h2
      · exact Or.inr ⟨w, List.mem_cons_self _ _, hk.symm, o, ho⟩
    · exact Or.inr ⟨x, List.mem_cons_of_mem _ hx, hx1, o, ho⟩

/-! ## Fact-bundle data model (the JSON snapshot documents)

Field defaults mirror Python `dict.get(key, '')`: an absent key and an
empty string are indistinguishable to the code, so fields are plain
strings. `dtype` embeds the JSON key `type`. -/

/-- One row of a device's own interface table
(`interfaces` entries of a fact bundle). -/
structure Iface where
  interface : String
  ip_address : String := ""
  ok : String := ""
  method : String := ""
  status : String := ""
  protocol : String := ""
deriving DecidableEq

/-- One CDP neighbor record of a fact bundle. -/
structure CdpRec where
  local_interface : String := ""
  neighbor_device : String := ""
  neighbor_interface : String := ""
  neighbor_ip : String := ""
deriving DecidableEq

/-- One OSPF neighbor record of a fact bundle. -/
structure OspfRec where
  neighbor_id : String := ""
  priority : String := ""
  state : String := ""
  dead_time : String := ""
  address : String := ""
  interface : String := ""
deriving DecidableEq

/-- One device's fact bundle. The switch payloads (`vlans`,
`mac_addresses`, `spanning_tree`, `trunks`) are stored by the ingestion
engine as opaque JSON strings, so they are modelled as opaque strings. -/
structure DeviceData where
  hostname : String
  dtype : String
  ip_address : String := ""
  interfaces : List Iface := []
  cdp_neighbors : List CdpRec := []
  ospf_neighbors : List OspfRec := []
  vlans : String := "[]"
  mac_addresses : String := "[]"
  spanning_tree : String := "\x7b\x7d"
  trunks : String := "[]"
deriving DecidableEq

/-- A whole snapshot document `{snapshot_id, devices}`. -/
structure NetworkData where
  snapshot_id : String
  devices : List DeviceData
deriving DecidableEq

/-! ## Graph-store state

Neo4j state is modelled per label/relationship type as an association
list keyed by the natural key the code merges on.  `CREATE` (used only
for Snapshot nodes) appends; `MERGE ... SET` is `upsertA`. -/

/-- Switch payloads written onto a `Device` node by ingestion phase 3. -/
structure SwitchExtra where
  vlans : String
  mac_addresses : String
  spanning_tree : String
  trunks : String
deriving DecidableEq

/-- Mutable properties of a `Device` node (key: hostname). -/
structure DevProps where
  dtype : String
  ip_address : String
  snapshot_id : String
  extra : Option SwitchExtra
deriving DecidableEq

/-- Properties of an `Interface` node (key: `hostname:name` id). -/
structure IfProps where
  name : String
  ip_address : String
  ok : String
  method : String
  status : String
  protocol : String
  snapshot_id : String
deriving DecidableEq

/-- Properties of a `CONNECTED_TO` relationship
(key: (local interface id, remote interface id)). -/
structure CdpProps where
  protocol : String
  neighbor_ip : String
  snapshot_id : String
deriving DecidableEq

/-- Properties of an `OSPF_NEIGHBOR` relationship
(key: (local hostname, remote hostname)). -/
structure OspfProps where
  neighbor_id : String
  state : String
  priority : String
  dead_time : String
  local_interface : String
  neighbor_address : String
  snapshot_id : String
deriving DecidableEq

/-- The graph-store state.  `snapshots` pairs a snapshot id with its
`device_count`; `hasInterface` entries are `((hostname, interface id), ())`
— `HAS_INTERFACE` relationships carry no properties and no snapshot tag. -/
structure GraphState where
  snapshots : List (String × Nat) := []
  devices : List (String × DevProps) := []
  interfaces : List (String × IfProps) := []
  hasInterface : List ((String × String) × Unit) := []
  connectedTo : List ((String × String) × CdpProps) := []
  ospfNeighbors : List ((String × String) × OspfProps) := []
deriving DecidableEq

/-- An empty graph store. -/
def emptyGraph : GraphState := {}

/-! ## Ingestion (`SnapshotManager.load_snapshot` phases 0-6)

Each phase is expressed as the ordered sequence of keyed writes the
Python loop issues; `applyWrites` replays them in loop order.  Writes to
independent collections issued by a single Cypher statement (interface
node plus its `HAS_INTERFACE` edge) are split into two parallel write
sequences, which is equivalent because the collections are disjoint. -/

/-- Interface node id `hostname ++ ":" ++ name`. -/
def ifaceId (h name : String) : String :=
  h ++ ":" ++ name

/-- Phase 1 writes: `MERGE (d:Device {hostname}) SET type/ip/snapshot_id`
(the switch `extra` payload of an existing node is untouched by `SET`). -/
def devWrites (s : String) (nd : NetworkData) :
    List (String × (Option DevProps → DevProps)) :=
  nd.devices.map fun dd =>
    (dd.hostname, fun old =>
      { dtype := dd.dtype, ip_address := dd.ip_address, snapshot_id := s,
        extra := match old with | some o => o.extra | none => none })

/-- Interface node properties written by phase 2 (`SET` of every field). -/
def mkIfProps (s : String) (i : Iface) : IfProps :=
  { name := i.interface, ip_address := i.ip_address, ok := i.ok,
    method := i.method, status := i.status, protocol := i.protocol,
    snapshot_id := s }

/-- Phase 2 interface-node writes: each row runs
`MATCH (d:Device {hostname}) MERGE (i:Interface {id}) SET ...`, a no-op
when the device node is absent (`MATCH` fails), hence the filter. -/
def ifaceWrites (s : String) (nd : NetworkData)
    (devs : List (String × DevProps)) :
    List (String × (Option IfProps → IfProps)) :=
  (nd.devices.filter fun dd => hasKey devs dd.hostname).flatMap fun dd =>
    dd.interfaces.map fun i =>
      (ifaceId dd.hostname i.interface, fun _ => mkIfProps s i)

/-- Phase 2 `MERGE (d)-[:HAS_INTERFACE]->(i)` writes. -/
def hasIfWrites (nd : NetworkData) (devs : List (String × DevProps)) :
    List ((String × String) × (Option Unit → Unit)) :=
  (nd.devices.filter fun dd => hasKey devs dd.hostname).flatMap fun dd =>
    dd.interfaces.map fun i =>
      ((dd.hostname, ifaceId dd.hostname i.interface), fun _ => ())

/-- Phase 3: for switch bundles,
`MATCH (d:Device {hostname}) SET vlans/mac_addresses/spanning_tree/trunks`
(update-only; no node creation, no `snapshot_id` write). -/
def applyExtra (nd : NetworkData) (devs : List (String × DevProps)) :
    List (String × DevProps) :=
  nd.devices.foldl
    (fun acc dd =>
      if dd.dtype = "switch" then
        acc.map fun kv =>
          if kv.1 = dd.hostname then
            (kv.1, { kv.2 with extra := some (SwitchExtra.mk dd.vlans
                dd.mac_addresses dd.spanning_tree dd.trunks) })
          else kv
      else acc)
    devs

/-- Phase 4 interface-lookup writes
(`iface_by_name[(hostname, name)] = iface`, batch order, later entries
overwriting). -/
def ifacePairWrites (nd : NetworkData) :
    List ((String × String) × (Option Iface → Iface)) :=
  nd.devices.flatMap fun dd =>
    dd.interfaces.map fun i => ((dd.hostname, i.interface), fun _ => i)

/-- Phase 4 in-memory interface lookup. -/
def ifaceByName (nd : NetworkData) : List ((String × String) × Iface) :=
  applyWrites [] (ifacePairWrites nd)

/-- Phase 4 IP-to-hostname writes (`if ip: device_by_ip[ip] = hostname`). -/
def ipWrites (nd : NetworkData) : List (String × (Option String → String)) :=
  (nd.devices.filter fun dd => dd.ip_address ≠ "").map fun dd =>
    (dd.ip_address, fun _ => dd.hostname)

/-- Phase 4 in-memory IP-to-hostname lookup. -/
def deviceByIp (nd : NetworkData) : List (String × String) :=
  applyWrites [] (ipWrites nd)

/-- `cdp.get('neighbor_device', '').split('.')[0]` — strip the domain
suffix from a CDP-reported neighbor name. -/
def cdpStrip (s : String) : String :=
  (splitOnS s ".").headD ""

/-- The condition under which the phase-5 loop reaches its
`session.run` / `cdp_count += 1` body for a record of device `h`: the
three fields are non-empty (Python truthiness guard) and both batch
lookups return an entry (a present `iface` dict is never empty — it
always holds at least the `interface` key — so Python dict-truthiness
coincides with lookup success). -/
def cdpGuard (nd : NetworkData) (h : String) (c : CdpRec) : Bool :=
  c.local_interface ≠ "" && cdpStrip c.neighbor_device ≠ "" &&
  c.neighbor_interface ≠ "" &&
  (lookupA (ifaceByName nd) (h, c.local_interface)).isSome &&
  (lookupA (ifaceByName nd)
    (cdpStrip c.neighbor_device, c.neighbor_interface)).isSome

/-- All CDP records of the batch in processing order, each paired with
the reporting hostname. -/
def cdpRecords (nd : NetworkData) : List (String × CdpRec) :=
  nd.devices.flatMap fun dd => dd.cdp_neighbors.map fun c => (dd.hostname, c)

/-- The `CONNECTED_TO` merge key of a CDP record. -/
def cdpKey (h : String) (c : CdpRec) : String × String :=
  (ifaceId h c.local_interface,
   ifaceId (cdpStrip c.neighbor_device) c.neighbor_interface)

/-- Phase 5 `CONNECTED_TO` writes: guarded records whose two
`MATCH (:Interface {id})` clauses both find a node. -/
def cdpWrites (s : String) (nd : NetworkData)
    (ifs : List (String × IfProps)) :
    List ((String × String) × (Option CdpProps → CdpProps)) :=
  (((cdpRecords nd).filter fun hc => cdpGuard nd hc.1 hc.2).filter fun hc =>
      hasKey ifs (cdpKey hc.1 hc.2).1 && hasKey ifs (cdpKey hc.1 hc.2).2).map
    fun hc =>
      (cdpKey hc.1 hc.2, fun _ =>
        { protocol := "CDP", neighbor_ip := hc.2.neighbor_ip,
          snapshot_id := s })

/-- Phase 5 `cdp_count`: incremented for every guarded record
(whether or not the store `MATCH` succeeds). -/
def cdpCount (nd : NetworkData) : Nat :=
  ((cdpRecords nd).filter fun hc => cdpGuard nd hc.1 hc.2).length

/-- The condition under which the phase-6 loop reaches its
`session.run` / `ospf_count += 1` body: `device_by_ip.get(address)` is a
truthy (present and non-empty) hostname. -/
def ospfGuard (nd : NetworkData) (c : OspfRec) : Bool :=
  ((lookupA (deviceByIp nd) c.address).getD "") ≠ ""

/-- All OSPF records of the batch in processing order. -/
def ospfRecords (nd : NetworkData) : List (String × OspfRec) :=
  nd.devices.flatMap fun dd => dd.ospf_neighbors.map fun o => (dd.hostname, o)

/-- The `OSPF_NEIGHBOR` merge key of an OSPF record. -/
def ospfKey (nd : NetworkData) (h : String) (o : OspfRec) : String × String :=
  (h, (lookupA (deviceByIp nd) o.address).getD "")

/-- Phase 6 `OSPF_NEIGHBOR` writes: guarded records whose two
`MATCH (:Device {hostname})` clauses both find a node. -/
def ospfWrites (s : String) (nd : NetworkData)
    (devs : List (String × DevProps)) :
    List ((String × String) × (Option OspfProps → OspfProps)) :=
  (((ospfRecords nd).filter fun ho => ospfGuard nd ho.2).filter fun ho =>
      hasKey devs ho.1 && hasKey devs (ospfKey nd ho.1 ho.2).2).map
    fun ho =>
      (ospfKey nd ho.1 ho.2, fun _ =>
        { neighbor_id := ho.2.neighbor_id, state := ho.2.state,
          priority := ho.2.priority, dead_time := ho.2.dead_time,
          local_interface := ho.2.interface,
          neighbor_address := ho.2.address, snapshot_id := s })

/-- Phase 6 `ospf_count`. -/
def ospfCount (nd : NetworkData) : Nat :=
  ((ospfRecords nd).filter fun ho => ospfGuard nd ho.2).length

/-- The summary counters the ingestion run reports. -/
structure IngestCounts where
  devices : Nat
  interfaces : Nat
  cdp_links : Nat
  ospf_links : Nat
deriving DecidableEq

/-- The ingestion engine: `SnapshotManager.load_snapshot` phases 0-6
run against graph state `g` (phase 0 `CREATE`s the Snapshot node —
an append, not an upsert). -/
def ingest (s : String) (nd : NetworkData) (g : GraphState) :
    GraphState × IngestCounts :=
  let snaps := g.snapshots ++ [(s, nd.devices.length)]
  let devs1 := applyWrites g.devices (devWrites s nd)
  let ifs := applyWrites g.interfaces (ifaceWrites s nd devs1)
  let hasIf := applyWrites g.hasInterface (hasIfWrites nd devs1)
  let devs2 := applyExtra nd devs1
  let ct := applyWrites g.connectedTo (cdpWrites s nd ifs)
  let ons := applyWrites g.ospfNeighbors (ospfWrites s nd devs2)
  ({ snapshots := snaps, devices := devs2, interfaces := ifs,
     hasInterface := hasIf, connectedTo := ct, ospfNeighbors := ons },
   { devices := nd.devices.length,
     interfaces := (nd.devices.map fun dd => dd.interfaces.length).sum,
     cdp_links := cdpCount nd,
     ospf_links := ospfCount nd })

/-! ## Snapshot lifecycle (`SnapshotManager`) -/

/-- The manager's state: the shared store plus the in-memory
`active_snapshot_id` pointer. -/
structure ManagerState where
  graph : GraphState := {}
  active : Option String := none
deriving DecidableEq

/-- `is_snapshot_loaded`: `MATCH (s:Snapshot {id}) RETURN count(s) > 0`. -/
def isLoadedG (g : GraphState) (sid : String) : Bool :=
  g.snapshots.any fun sn => sn.1 = sid

/-- The result dict `load_snapshot` returns. -/
structure LoadResult where
  snapshot_id : String
  already_loaded : Bool
  counts : Option IngestCounts
deriving DecidableEq

/-- `SnapshotManager.load_snapshot` on already-parsed snapshot data: if
the snapshot id is already present in the store, skip ingestion entirely
and only (optionally) set the active pointer; otherwise run `ingest`. -/
def loadSnapshot (nd : NetworkData) (setActive : Bool) (st : ManagerState) :
    ManagerState × LoadResult :=
  if isLoadedG st.graph nd.snapshot_id then
    ({ graph := st.graph,
       active := if setActive then some nd.snapshot_id else st.active },
     { snapshot_id := nd.snapshot_id, already_loaded := true,
       counts := none })
  else
    let gi := ingest nd.snapshot_id nd st.graph
    ({ graph := gi.1,
       active := if setActive then some nd.snapshot_id else st.active },
     { snapshot_id := nd.snapshot_id, already_loaded := false,
       counts := some gi.2 })

/-- `SnapshotManager.delete_snapshot`: no-op when the snapshot is not
loaded; otherwise delete relationships carrying the `snapshot_id`
property, then nodes carrying it (`Device` and `Interface` nodes — a
`Snapshot` node stores its id under `id`, not `snapshot_id`, and
`HAS_INTERFACE` relationships carry no properties), then the `Snapshot`
node, and finally clear the active pointer if it pointed at the deleted
id. -/
def deleteSnapshot (sid : String) (st : ManagerState) : ManagerState :=
  if isLoadedG st.graph sid then
    let g := st.graph
    let g1 : GraphState :=
      { g with
        connectedTo := g.connectedTo.filter fun e => e.2.snapshot_id ≠ sid,
        ospfNeighbors :=
          g.ospfNeighbors.filter fun e => e.2.snapshot_id ≠ sid }
    let g2 : GraphState :=
      { g1 with
        devices := g1.devices.filter fun d => d.2.snapshot_id ≠ sid,
        interfaces := g1.interfaces.filter fun i => i.2.snapshot_id ≠ sid }
    let g3 : GraphState :=
      { g2 with snapshots := g2.snapshots.filter fun sn => sn.1 ≠ sid }
    { graph := g3,
      active := if st.active = some sid then none else st.active }
  else st

/-! ## Collector table parsers (`collectors/base.py`,
`collectors/switch_collector.py`)

Each parser scans the raw command output: find the header line (return
an empty result when absent), optionally find the dash separator line,
collect data lines (skipping blanks and syslog noise, stopping at a
prompt-like line), then extract rows.  The per-row regular expressions
of the source are modelled on the whitespace-token view of a line: every
`\S+` group is one token and a `.+?` group spans the intermediate
tokens (the only difference is that multi-space runs inside a `.+?`
capture collapse to single spaces, which no claim observes). -/

/-- First suffix after a line satisfying `p`, or `none` if `p` never
holds (the header-search loop of every parser). -/
def afterFirst (p : String → Bool) : List String → Option (List String)
  | [] => none
  | l :: ls => if p l then some ls else afterFirst p ls

/-- Header predicate of `get_interface_brief`. -/
def ibHeader (line : String) : Bool :=
  startsWithS (stripS line) "Interface" && containsSub line "IP-Address"

/-- Header predicate of `get_ospf_neighbors`. -/
def ospfHeader (line : String) : Bool :=
  containsSub line "Neighbor ID" && containsSub line "State"

/-- Header predicate of `get_vlan_brief`. -/
def vlanHeader (line : String) : Bool :=
  startsWithS (stripS line) "VLAN" && containsSub line "Name"

/-- Header predicate of `get_mac_address_table`. -/
def macHeader (line : String) : Bool :=
  containsSub line "Vlan" && containsSub line "Mac Address" &&
  containsSub line "Type"

/-- Dash separator line (`show vlan brief` / `show mac address-table`). -/
def sepLine (line : String) : Bool :=
  startsWithS (stripS line) "----"

/-- Syslog / pagination noise skipped by every data-line loop. -/
def noiseLine (s : String) : Bool :=
  startsWithS s "%" || startsWithS s "*" || startsWithS s "^" ||
  startsWithS s "--More--"

/-- Data-line collection: skip blanks, stop at `stop`, skip noise, keep
the raw line otherwise. -/
def collectRows (stop : String → Bool) : List String → List String
  | [] => []
  | l :: ls =>
    let s := stripS l
    if s = "" then collectRows stop ls
    else if stop s then []
    else if noiseLine s then collectRows stop ls
    else l :: collectRows stop ls

/-- The default terminator: a prompt-like line ending in `#`. -/
def stopAtPrompt (s : String) : Bool :=
  endsWithS s "#"

/-- The MAC-table terminator: `Total ...` summary line or prompt. -/
def stopAtTotal (s : String) : Bool :=
  startsWithS s "Total" || endsWithS s "#"

/-- Row pattern of `get_interface_brief`
(`^(\S+)\s+(\S+)\s+(\S+)\s+(\S+)\s+(.+?)\s+(\S+)\s*$`, anchored so a
line starting with whitespace never matches). -/
def ibRow (line : String) : Option Iface :=
  match line.data with
  | [] => none
  | c :: _ =>
    if isWS c then none
    else
      match wordsOf line with
      | i :: ip :: ok :: m :: rest =>
        if 2 ≤ rest.length then
          some (Iface.mk i ip ok m (joinSpace rest.dropLast)
            (rest.getLastD ""))
        else none
      | _ => none

/-- Row pattern of `get_ospf_neighbors` (six anchored fields, dotted
quads for `neighbor_id` and `address`, digits for `priority`). -/
def ospfRow (line : String) : Option OspfRec :=
  match line.data with
  | [] => none
  | c :: _ =>
    if isWS c then none
    else
      match wordsOf line with
      | [nid, prio, st, dt, addr, ifc] =>
        if isDottedQuad nid && isDigits prio && isDottedQuad addr then
          some (OspfRec.mk nid prio st dt addr ifc)
        else none
      | _ => none

/-- One VLAN row of `show vlan brief`. -/
structure VlanRec where
  vlan_id : String
  name : String
  status : String
  ports : String
deriving DecidableEq

/-- Row pattern of `get_vlan_brief`
(`^(\d+)\s+(\S+)\s+(\S+)\s*(.*)$`, ports stripped afterwards). -/
def vlanRow (line : String) : Option VlanRec :=
  match line.data with
  | [] => none
  | c :: _ =>
    if isWS c then none
    else
      match wordsOf line with
      | vid :: name :: st :: rest =>
        if isDigits vid then some (VlanRec.mk vid name st (joinSpace rest))
        else none
      | _ => none

/-- One MAC-table row of `show mac address-table`. -/
structure MacRec where
  vlan : String
  mac_address : String
  mtype : String
  port : String
deriving DecidableEq

/-- Row pattern of `get_mac_address_table`
(`^\s*(\d+)\s+(hhhh\.hhhh\.hhhh)\s+(\S+)\s+(\S+)\s*$`; leading
whitespace is allowed here). -/
def macRow (line : String) : Option MacRec :=
  match wordsOf line with
  | [v, mac, t, p] =>
    if isDigits v && isMacTok mac then some (MacRec.mk v mac t p)
    else none
  | _ => none

/-- `BaseDeviceCollector.get_interface_brief` applied to raw output
(the transport stage, which requires a connected session, is already
discharged: the parser consumes the returned text). -/
def getInterfaceBrief (raw : String) : List Iface :=
  match afterFirst ibHeader (linesOf raw) with
  | none => []
  | some rest => (collectRows stopAtPrompt rest).filterMap ibRow

/-- `BaseDeviceCollector.get_ospf_neighbors` applied to raw output. -/
def getOspfNeighbors (raw : String) : List OspfRec :=
  match afterFirst ospfHeader (linesOf raw) with
  | none => []
  | some rest => (collectRows stopAtPrompt rest).filterMap ospfRow

/-- `SwitchCollector.get_vlan_brief` applied to raw output (header,
then separator, both mandatory). -/
def getVlanBrief (raw : String) : List VlanRec :=
  match afterFirst vlanHeader (linesOf raw) with
  | none => []
  | some rest =>
    match afterFirst sepLine rest with
    | none => []
    | some rest2 => (collectRows stopAtPrompt rest2).filterMap vlanRow

/-- `SwitchCollector.get_mac_address_table` applied to raw output. -/
def getMacAddressTable (raw : String) : List MacRec :=
  match afterFirst macHeader (linesOf raw) with
  | none => []
  | some rest =>
    match afterFirst sepLine rest with
    | none => []
    | some rest2 => (collectRows stopAtTotal rest2).filterMap macRow

/-! ## Switch fact collection (`NetworkFetcher.fetch_device`, switch
branch)

Each collector call is represented by its outcome (`Except`): the body
runs the calls in order inside one `try`, so any failure before the
OSPF step aborts the device (`return None`), while the OSPF step has
its own bare `except` that substitutes an empty list.  Trunk rows and
the spanning-tree summary are threaded as opaque payload strings. -/

/-- A switch fact bundle as `fetch_device` assembles it. -/
structure SwitchBundle where
  hostname : String
  dtype : String
  ip_address : String
  interfaces : List Iface
  cdp_neighbors : List CdpRec
  vlans : List VlanRec
  trunks : String
  mac_addresses : List MacRec
  spanning_tree : String
  ospf_neighbors : List OspfRec
deriving DecidableEq

/-- `NetworkFetcher.fetch_device` for a switch: `None` when connect or
any pre-OSPF collector call raises; otherwise the bundle, with a failed
OSPF query caught and turned into `ospf_neighbors = []`. -/
def fetchDeviceSwitch (hostname ip_address : String)
    (conn : Except String Unit)
    (ifr : Except String (List Iface))
    (cdpr : Except String (List CdpRec))
    (vlr : Except String (List VlanRec))
    (trr : Except String String)
    (mcr : Except String (List MacRec))
    (stpr : Except String String)
    (ospfr : Except String (List OspfRec)) : Option SwitchBundle :=
  match conn, ifr, cdpr, vlr, trr, mcr, stpr with
  | .ok _, .ok ifs, .ok cdp, .ok vl, .ok tr, .ok mc, .ok stp =>
    some (SwitchBundle.mk hostname "switch" ip_address ifs cdp vl tr mc stp
      (match ospfr with | .ok o => o | .error _ => []))
  | _, _, _, _, _, _, _ => none

/-! ## Query catalog (`agents/prompts.py` `QUERY_TEMPLATES`)

The `query` strings are the exact template bodies (descriptions and
keyword lists are display/prompt-only and not modelled). -/

/-- `list_devices` template body. -/
def listDevicesQuery : String :=
  "MATCH (d:Device)\nRETURN d.hostname AS host, d.type AS type, d.ip_address AS ip\nORDER BY host"

/-- `count_interfaces` template body. -/
def countInterfacesQuery : String :=
  "MATCH (d:Device)-[:HAS_INTERFACE]->(i:Interface)\nRETURN d.hostname AS host, count(i) AS interface_count\nORDER BY interface_count DESC"

/-- `show_topology` template body. -/
def showTopologyQuery : String :=
  "MATCH (d1:Device)-[:HAS_INTERFACE]->(i1:Interface)-[r:CONNECTED_TO]->(i2:Interface)<-[:HAS_INTERFACE]-(d2:Device)\nRETURN d1.hostname AS from, i1.name AS from_if, d2.hostname AS to, i2.name AS to_if, r.protocol AS protocol\nORDER BY from, to"

/-- `find_down_interfaces` template body. -/
def findDownInterfacesQuery : String :=
  "MATCH (d:Device)-[:HAS_INTERFACE]->(i:Interface)\nWHERE i.status <> \x27up\x27 OR i.protocol <> \x27up\x27\nRETURN d.hostname AS host, i.name AS iface, i.status AS status, i.protocol AS protocol\nORDER BY host, iface"

/-- `show_ospf_neighbors` template body. -/
def showOspfNeighborsQuery : String :=
  "MATCH (d:Device)-[r:OSPF_NEIGHBOR]->(n:Device)\nRETURN d.hostname AS local, n.hostname AS neighbor, r.state AS state, r.neighbor_address AS neighbor_ip, r.local_interface AS local_if\nORDER BY local, neighbor"

/-- `show_up_interfaces` template body. -/
def showUpInterfacesQuery : String :=
  "MATCH (d:Device)-[:HAS_INTERFACE]->(i:Interface)\nWHERE i.status = \x27up\x27 AND i.protocol = \x27up\x27\nRETURN d.hostname AS host, i.name AS iface, i.ip_address AS ip\nORDER BY host, iface"

/-- `show_up_interfaces_device` template body. -/
def showUpInterfacesDeviceQuery : String :=
  "MATCH (d:Device \x7bhostname: \"PARAM_DEVICE\"\x7d)-[:HAS_INTERFACE]->(i:Interface)\nWHERE i.status = \"up\" AND i.protocol = \"up\"\nRETURN i.name AS iface, i.ip_address AS ip\nORDER BY iface"

/-- `show_interfaces_connected_device` template body. -/
def showInterfacesConnectedDeviceQuery : String :=
  "MATCH (d:Device \x7bhostname: \"PARAM_DEVICE\"\x7d)-[:HAS_INTERFACE]->(i:Interface)\nMATCH (i)-[r:CONNECTED_TO]->(ri:Interface)<-[:HAS_INTERFACE]-(rd:Device)\nRETURN i.name AS local_iface, rd.hostname AS remote_device, ri.name AS remote_iface, r.protocol AS protocol\nORDER BY remote_device, remote_iface"

/-- `show_cdp_neighbors_device` template body. -/
def showCdpNeighborsDeviceQuery : String :=
  "MATCH (d:Device \x7bhostname: \"PARAM_DEVICE\"\x7d)-[:HAS_INTERFACE]->(i:Interface)\nMATCH (i)-[r:CONNECTED_TO]->(ri:Interface)<-[:HAS_INTERFACE]-(rd:Device)\nWHERE r.protocol = \"CDP\"\nRETURN i.name AS local_iface, rd.hostname AS neighbor_device, ri.name AS neighbor_iface, r.neighbor_ip AS neighbor_ip\nORDER BY neighbor_device, neighbor_iface"

/-- `show_ospf_neighbors_device` template body. -/
def showOspfNeighborsDeviceQuery : String :=
  "MATCH (d:Device \x7bhostname: \"PARAM_DEVICE\"\x7d)-[r:OSPF_NEIGHBOR]->(n:Device)\nRETURN n.hostname AS neighbor, r.state AS state, r.neighbor_address AS neighbor_ip, r.local_interface AS local_iface\nORDER BY neighbor"

/-- `show_shortest_path` template body. -/
def showShortestPathQuery : String :=
  "MATCH p = shortestPath((a:Device \x7bhostname: \"PARAM_DEVICE1\"\x7d)-[:HAS_INTERFACE|CONNECTED_TO*]-(b:Device \x7bhostname: \"PARAM_DEVICE2\"\x7d))\nRETURN [n IN nodes(p) |\n  CASE\n    WHEN \"Device\" IN labels(n) THEN n.hostname + \" (\" + coalesce(n.ip_address,\"\") + \")\"\n    WHEN \"Interface\" IN labels(n) THEN \"IF:\" + coalesce(n.name, n.id, \"unknown\")\n    ELSE \"unknown\"\n  END\n] AS path_nodes"

/-- `show_all_paths` template body. -/
def showAllPathsQuery : String :=
  "MATCH p = allShortestPaths((a:Device \x7bhostname: \"PARAM_DEVICE1\"\x7d)-[:HAS_INTERFACE|CONNECTED_TO*]-(b:Device \x7bhostname: \"PARAM_DEVICE2\"\x7d))\nRETURN [n IN nodes(p) |\n  CASE\n    WHEN \"Device\" IN labels(n) THEN n.hostname + \" (\" + coalesce(n.ip_address,\"\") + \")\"\n    WHEN \"Interface\" IN labels(n) THEN \"IF:\" + coalesce(n.name, n.id, \"unknown\")\n    ELSE \"unknown\"\n  END\n] AS path_nodes"

/-- `show_neighbors_one_hop` template body. -/
def showNeighborsOneHopQuery : String :=
  "MATCH (a:Device \x7bhostname: \"PARAM_DEVICE\"\x7d)-[r]-(b:Device)\nRETURN b.hostname AS neighbor, type(r) AS rel\nORDER BY neighbor"

/-- A catalog template: required parameter names and the query body. -/
structure Template where
  params : List String
  query : String
deriving DecidableEq

/-- The catalog (`QUERY_TEMPLATES`), in source order. -/
def queryTemplates : List (String × Template) := [
  ("list_devices", Template.mk [] listDevicesQuery),
  ("count_interfaces", Template.mk [] countInterfacesQuery),
  ("show_topology", Template.mk [] showTopologyQuery),
  ("find_down_interfaces", Template.mk [] findDownInterfacesQuery),
  ("show_ospf_neighbors", Template.mk [] showOspfNeighborsQuery),
  ("show_up_interfaces", Template.mk [] showUpInterfacesQuery),
  ("show_up_interfaces_device", Template.mk ["device"] showUpInterfacesDeviceQuery),
  ("show_interfaces_connected_device", Template.mk ["device"] showInterfacesConnectedDeviceQuery),
  ("show_cdp_neighbors_device", Template.mk ["device"] showCdpNeighborsDeviceQuery),
  ("show_ospf_neighbors_device", Template.mk ["device"] showOspfNeighborsDeviceQuery),
  ("show_shortest_path", Template.mk ["device1", "device2"] showShortestPathQuery),
  ("show_all_paths", Template.mk ["device1", "device2"] showAllPathsQuery),
  ("show_neighbors_one_hop", Template.mk ["device"] showNeighborsOneHopQuery)]

/-! ## Query agent (`agents/query_agent.py`) -/

/-- `"WHERE" in cypher_query.split("RETURN")[0]`. -/
def whereBeforeReturn (q : String) : Bool :=
  containsSub ((splitOnS q "RETURN").headD "") "WHERE"

/-- `cypher_query[:pos] + clause + cypher_query[pos:]` where
`pos = cypher_query.find("RETURN")`, applied only when `pos > 0`. -/
def insertBeforeReturn (q clause : String) : String :=
  match splitOnS q "RETURN" with
  | [] => q
  | [_] => q
  | p0 :: rest =>
    if p0 = "" then q
    else p0 ++ (clause ++ ("RETURN" ++ String.intercalate "RETURN" rest))

/-- `NetworkQueryAgent._add_snapshot_filter`: textual rewriting of the
query when a snapshot filter is set (`None` and the empty string are
both falsy in Python and leave the query unchanged). -/
def addSnapshotFilter (sid : Option String) (q : String) : String :=
  match sid with
  | none => q
  | some s =>
    if s = "" then q
    else
      let q1 :=
        if containsSub q "MATCH (d:Device" && !whereBeforeReturn q then
          replaceS q "MATCH (d:Device"
            ("MATCH (d:Device \x7bsnapshot_id: \"" ++ s ++ "\"\x7d")
        else q
      let q2 :=
        if containsSub q1 "MATCH (i:Interface" && !whereBeforeReturn q1 then
          replaceS q1 "MATCH (i:Interface"
            ("MATCH (i:Interface \x7bsnapshot_id: \"" ++ s ++ "\"\x7d")
        else q1
      if (containsSub q2 "shortestPath" || containsSub q2 "allShortestPaths")
          && !whereBeforeReturn q2 then
        insertBeforeReturn q2
          ("WHERE all(n IN nodes(p) WHERE n.snapshot_id = \"" ++ s ++
           "\" OR NOT exists(n.snapshot_id)) ")
      else q2

/-- The structured outcome of the LLM template-selection call, after
the tag/JSON extraction stage of `select_template`: missing
`<response>` tags, malformed JSON, or a parsed
`{template, params}` object (the extracted `reasoning` text is
display-only and not modelled). -/
inductive LlmOutcome where
  | noResponseTags
  | badJson
  | parsed (template : Option String) (params : List (String × String))
deriving DecidableEq

/-- The dict `select_template` returns (minus the display-only
`reasoning` field). -/
structure Selection where
  template : String
  params : List (String × String)
  cypher : String
deriving DecidableEq

/-- Parameter substitution of `select_template`: skipped entirely when
`params` is empty; otherwise each declared parameter present in
`params` has its quoted `"PARAM_NAME"` placeholder replaced. -/
def buildCypher (t : Template) (ps : List (String × String)) : String :=
  if ps.isEmpty then t.query
  else
    t.params.foldl
      (fun q pn =>
        match lookupA ps pn with
        | some v =>
          replaceS q ("\"PARAM_" ++ toUpperS pn ++ "\"") ("\"" ++ v ++ "\"")
        | none => q)
      t.query

/-- `NetworkQueryAgent.select_template`: `Except.error` embeds the
`ValueError`s the Python raises (missing tags, JSON decode failure,
unknown template — a missing `template` key yields `None` and hence the
same unknown-template `ValueError`). -/
def selectTemplate (o : LlmOutcome) : Except String Selection :=
  match o with
  | .noResponseTags => .error "No valid response found in LLM output"
  | .badJson => .error "Failed to parse template selection response"
  | .parsed tk ps =>
    match tk with
    | none => .error "Unknown template: None"
    | some k =>
      match lookupA queryTemplates k with
      | none => .error ("Unknown template: " ++ k)
      | some t => .ok (Selection.mk k ps (buildCypher t ps))

/-- The dict `execute_query` returns.  Result rows are modelled as
their serialized JSON form (the recursive node/relationship
serialization is display-only), which is also the deduplication key. -/
structure ExecResult where
  success : Bool
  results : List String
  count : Nat
  error : Option String
deriving DecidableEq

/-- `NetworkQueryAgent.execute_query` over an abstract graph store
(`session.run` either yields rows or raises): apply the snapshot
filter, then wrap the store outcome — an exception becomes
`{success: False, error, results: [], count: 0}`. -/
def executeQuery (sid : Option String)
    (store : String → Except String (List String)) (q : String) :
    ExecResult :=
  match store (addSnapshotFilter sid q) with
  | .ok rs => ExecResult.mk true rs rs.length none
  | .error e => ExecResult.mk false [] 0 (some e)

/-- Deduplication of `ask`: first occurrence of each serialized row is
kept. -/
def dedupKeepFirst (l : List String) : List String :=
  l.foldl (fun acc r => if acc.contains r then acc else acc ++ [r]) []

/-- The dict `ask` returns; `results`/`count` are present only when
`execute` was requested, `error` only on store failure. -/
structure AskResponse where
  template : String
  params : List (String × String)
  cypher : String
  results : Option (List String)
  count : Option Nat
  error : Option String
deriving DecidableEq

/-- `NetworkQueryAgent.ask`: template selection (whose `ValueError`s
propagate uncaught, hence `Except.error`), then optional execution and
deduplication. -/
def ask (sid : Option String)
    (store : String → Except String (List String)) (o : LlmOutcome)
    (execute dedup : Bool) : Except String AskResponse :=
  match selectTemplate o with
  | .error e => .error e
  | .ok sel =>
    if execute then
      let ex := executeQuery sid store sel.cypher
      if dedup && ex.success then
        let u := dedupKeepFirst ex.results
        .ok (AskResponse.mk sel.template sel.params sel.cypher (some u)
          (some u.length) none)
      else
        .ok (AskResponse.mk sel.template sel.params sel.cypher
          (some ex.results) (some ex.count)
          (if ex.success then none else ex.error))
    else .ok (AskResponse.mk sel.template sel.params sel.cypher none none none)

/-! ## Bridging lemmas -/

theorem lookup_isSome_eq_hasKey {K V : Type} [DecidableEq K]
    (l : List (K × V)) (k : K) : (lookupA l k).isSome = hasKey l k := by
  unfold lookupA hasKey
  induction l with
  | nil => rfl
  | cons kv t ih =>
    by_cases h : kv.1 = k <;>
      simp [List.find?_cons, List.any_cons, h, ih]

theorem lookupA_eq_some {K V : Type} [DecidableEq K]
    {l : List (K × V)} {k : K} {v : V} (h : lookupA l k = some v) :
    ∃ kv ∈ l, kv.1 = k ∧ kv.2 = v := by
  unfold lookupA at h
  cases hf : l.find? (fun kv => kv.1 = k) with
  | none => rw [hf] at h; cases h
  | some kv =>
    rw [hf] at h
    have hv : kv.2 = v := by simpa using h
    have hp := List.find?_some hf
    exact ⟨kv, List.mem_of_find?_eq_some hf, by simpa using hp, hv⟩

theorem hasKey_applyWrites_nil {K V : Type} [DecidableEq K]
    (ws : List (K × (Option V → V))) (k : K) :
    hasKey (applyWrites ([] : List (K × V)) ws) k = true ↔
      ∃ w ∈ ws, w.1 = k := by
  rw [hasKey_applyWrites]
  simp [hasKey]

/-- Bool equality from coincidence of truth. -/
theorem boolEq_of_iff {a b : Bool} (h : a = true ↔ b = true) : a = b := by
  cases a <;> cases b <;> simp_all

/-! ## Shared concrete sample data (used by witnesses and
counterexamples) -/

/-- A well-formed two-device batch: a router and a switch that
resolve each other over CDP, one resolvable and one unresolvable OSPF
neighbor. -/
def sampleNd : NetworkData :=
  NetworkData.mk "A"
    [DeviceData.mk "R1" "router" "10.0.0.1"
      [Iface.mk "Gi0/0" "10.0.0.1" "YES" "NVRAM" "up" "up"]
      [CdpRec.mk "Gi0/0" "SW1.lab.local" "Gi0/1" "10.0.0.2"]
      [OspfRec.mk "2.2.2.2" "1" "FULL/DR" "00:00:33" "10.0.0.2" "Gi0/0",
       OspfRec.mk "9.9.9.9" "1" "FULL/DR" "00:00:33" "10.9.9.9" "Gi0/0"]
      "[]" "[]" "\x7b\x7d" "[]",
     DeviceData.mk "SW1" "switch" "10.0.0.2"
      [Iface.mk "Gi0/1" "10.0.0.2" "YES" "NVRAM" "up" "up"]
      [CdpRec.mk "Gi0/1" "R1" "Gi0/0" "10.0.0.1"]
      []
      "[]" "[]" "\x7b\x7d" "[]"]

/-- Manager state with `sampleNd` already loaded and active. -/
def sampleLoaded : ManagerState :=
  ManagerState.mk (ingest "A" sampleNd emptyGraph).1 (some "A")

/-! ## Claim C7 — already-loaded snapshots skip ingestion -/

/-- Claim C7: if `load` is called for a snapshot id already present in
the store, ingestion is skipped (the graph is unchanged, no counts are
produced), the result reports `already_loaded = true`, and the active
pointer is still updated exactly when `set_active` was requested. -/
theorem C7_load_already_loaded (nd : NetworkData) (setActive : Bool)
    (st : ManagerState) (h : isLoadedG st.graph nd.snapshot_id = true) :
    (loadSnapshot nd setActive st).1.graph = st.graph ∧
    (loadSnapshot nd setActive st).2.already_loaded = true ∧
    (loadSnapshot nd setActive st).2.counts = none ∧
    (loadSnapshot nd setActive st).1.active =
      (if setActive then some nd.snapshot_id else st.active) := by
  simp [loadSnapshot, h]

/-- Witness for C7 at the concrete loaded sample state. -/
theorem C7_load_already_loaded_witness :
    (loadSnapshot sampleNd true sampleLoaded).1.graph = sampleLoaded.graph ∧
    (loadSnapshot sampleNd true sampleLoaded).2.already_loaded = true ∧
    (loadSnapshot sampleNd true sampleLoaded).2.counts = none ∧
    (loadSnapshot sampleNd true sampleLoaded).1.active =
      (if true then some sampleNd.snapshot_id else sampleLoaded.active) := by
  exact C7_load_already_loaded sampleNd true sampleLoaded (by decide)

/-! ## Claim C10 — deleting an unloaded snapshot is a no-op -/

/-- Claim C10: calling `delete_snapshot` with a snapshot id that is not
loaded performs no store operation: the whole manager state (graph and
active pointer) is unchanged. -/
theorem C10_delete_not_loaded (sid : String) (st : ManagerState)
    (h : isLoadedG st.graph sid = false) :
    deleteSnapshot sid st = st := by
  simp [deleteSnapshot, h]

/-- Witness for C10: deleting the unloaded id "Z" from the sample
state. -/
theorem C10_delete_not_loaded_witness :
    deleteSnapshot "Z" sampleLoaded = sampleLoaded := by
  exact C10_delete_not_loaded "Z" sampleLoaded (by decide)

/-! ## Claim C4 — delete semantics -/

/-- Counterexample to claim C4 as stated ("Device nodes are never
deleted by this call"): after loading `sampleNd` under snapshot "A",
the Device nodes carry `snapshot_id = "A"`, so the node-deletion query
`MATCH (n {snapshot_id}) DELETE n` of `delete_snapshot("A")` removes
them — the store ends with no Device nodes at all. -/
theorem C4_counterexample :
    hasKey sampleLoaded.graph.devices "R1" = true ∧
    isLoadedG sampleLoaded.graph "A" = true ∧
    (deleteSnapshot "A" sampleLoaded).graph.devices = [] := by
  decide

/-- Claim C4 (amended): for a loaded snapshot id, `delete` removes
exactly the relationships tagged with it (`CONNECTED_TO` and
`OSPF_NEIGHBOR`; `HAS_INTERFACE` edges carry no tag and all survive),
then exactly the nodes tagged with it — including Device nodes whose
most recent load stamped them with this id — then the Snapshot node;
every node and relationship tagged with any other snapshot id remains
intact, and the active pointer is cleared iff it pointed at the deleted
id. -/
theorem C4_delete_semantics (sid : String) (st : ManagerState)
    (h : isLoadedG st.graph sid = true) :
    (∀ d, d ∈ (deleteSnapshot sid st).graph.devices ↔
      (d ∈ st.graph.devices ∧ d.2.snapshot_id ≠ sid)) ∧
    (∀ i, i ∈ (deleteSnapshot sid st).graph.interfaces ↔
      (i ∈ st.graph.interfaces ∧ i.2.snapshot_id ≠ sid)) ∧
    (∀ e, e ∈ (deleteSnapshot sid st).graph.connectedTo ↔
      (e ∈ st.graph.connectedTo ∧ e.2.snapshot_id ≠ sid)) ∧
    (∀ e, e ∈ (deleteSnapshot sid st).graph.ospfNeighbors ↔
      (e ∈ st.graph.ospfNeighbors ∧ e.2.snapshot_id ≠ sid)) ∧
    (deleteSnapshot sid st).graph.hasInterface = st.graph.hasInterface ∧
    (∀ sn, sn ∈ (deleteSnapshot sid st).graph.snapshots ↔
      (sn ∈ st.graph.snapshots ∧ sn.1 ≠ sid)) ∧
    (deleteSnapshot sid st).active =
      (if st.active = some sid then none else st.active) := by
  refine ⟨?_, ?_, ?_, ?_, ?_, ?_, ?_⟩ <;>
    simp [deleteSnapshot, h, List.mem_filter]

/-- Witness for C4 at the concrete loaded sample state. -/
theorem C4_delete_semantics_witness :
    (∀ d, d ∈ (deleteSnapshot "A" sampleLoaded).graph.devices ↔
      (d ∈ sampleLoaded.graph.devices ∧ d.2.snapshot_id ≠ "A")) ∧
    (∀ i, i ∈ (deleteSnapshot "A" sampleLoaded).graph.interfaces ↔
      (i ∈ sampleLoaded.graph.interfaces ∧ i.2.snapshot_id ≠ "A")) ∧
    (∀ e, e ∈ (deleteSnapshot "A" sampleLoaded).graph.connectedTo ↔
      (e ∈ sampleLoaded.graph.connectedTo ∧ e.2.snapshot_id ≠ "A")) ∧
    (∀ e, e ∈ (deleteSnapshot "A" sampleLoaded).graph.ospfNeighbors ↔
      (e ∈ sampleLoaded.graph.ospfNeighbors ∧ e.2.snapshot_id ≠ "A")) ∧
    (deleteSnapshot "A" sampleLoaded).graph.hasInterface =
      sampleLoaded.graph.hasInterface ∧
    (∀ sn, sn ∈ (deleteSnapshot "A" sampleLoaded).graph.snapshots ↔
      (sn ∈ sampleLoaded.graph.snapshots ∧ sn.1 ≠ "A")) ∧
    (deleteSnapshot "A" sampleLoaded).active =
      (if sampleLoaded.active = some "A" then none
       else sampleLoaded.active) := by
  exact C4_delete_semantics "A" sampleLoaded (by decide)

/-! ## Claim C8 — header-less output yields empty parse results -/

theorem afterFirst_eq_none (p : String → Bool) (ls : List String)
    (h : ∀ l ∈ ls, p l = false) : afterFirst p ls = none := by
  induction ls with
  | nil => rfl
  | cons l t ih =>
    have hl := h l (List.mem_cons_self _ _)
    simp only [afterFirst, hl]
    exact ih fun x hx => h x (List.mem_cons_of_mem _ hx)

/-- Claim C8: for raw output in which the expected header line never
occurs, each of the four table parsers (interface brief, OSPF
neighbors, VLAN brief, MAC address table) returns an empty result —
and, being a total function of the text, never raises. -/
theorem C8_headerless_parsers (raw : String) :
    ((∀ l ∈ linesOf raw, ibHeader l = false) →
      getInterfaceBrief raw = []) ∧
    ((∀ l ∈ linesOf raw, ospfHeader l = false) →
      getOspfNeighbors raw = []) ∧
    ((∀ l ∈ linesOf raw, vlanHeader l = false) →
      getVlanBrief raw = []) ∧
    ((∀ l ∈ linesOf raw, macHeader l = false) →
      getMacAddressTable raw = []) := by
  refine ⟨fun h => ?_, fun h => ?_, fun h => ?_, fun h => ?_⟩
  · unfold getInterfaceBrief
    rw [afterFirst_eq_none ibHeader _ h]
  · unfold getOspfNeighbors
    rw [afterFirst_eq_none ospfHeader _ h]
  · unfold getVlanBrief
    rw [afterFirst_eq_none vlanHeader _ h]
  · unfold getMacAddressTable
    rw [afterFirst_eq_none macHeader _ h]

/-- Witness for C8 on concrete header-less output. -/
theorem C8_headerless_parsers_witness :
    getInterfaceBrief "no header here\njust noise" = [] ∧
    getOspfNeighbors "no header here\njust noise" = [] ∧
    getVlanBrief "no header here\njust noise" = [] ∧
    getMacAddressTable "no header here\njust noise" = [] := by
  have h := C8_headerless_parsers "no header here\njust noise"
  exact ⟨h.1 (by decide), h.2.1 (by decide), h.2.2.1 (by decide),
    h.2.2.2 (by decide)⟩

/-! ## Claim C9 — switch OSPF failure degrades to an empty list -/

/-- Claim C9: during switch fact collection, when every pre-OSPF step
succeeds and the OSPF neighbor query raises, the bundle is still
produced: `ospf_neighbors` is the empty list, all other collected
fields are intact, and the failure does not propagate (the result is
`some`, not an abort). -/
theorem C9_switch_ospf_failure (hostname ip_address : String)
    (ifs : List Iface) (cdp : List CdpRec) (vl : List VlanRec)
    (tr : String) (mc : List MacRec) (stp : String) (e : String) :
    fetchDeviceSwitch hostname ip_address (.ok ()) (.ok ifs) (.ok cdp)
        (.ok vl) (.ok tr) (.ok mc) (.ok stp) (.error e) =
      some (SwitchBundle.mk hostname "switch" ip_address ifs cdp vl tr mc
        stp []) := by
  rfl

/-! ## Claim C3 — snapshot scoping of query templates -/

/-- The part of the shortest-path template before `RETURN`. -/
def shortestPathHead : String :=
  "MATCH p = shortestPath((a:Device \x7bhostname: \"PARAM_DEVICE1\"\x7d)-[:HAS_INTERFACE|CONNECTED_TO*]-(b:Device \x7bhostname: \"PARAM_DEVICE2\"\x7d))\n"

/-- The part of the all-shortest-paths template before `RETURN`. -/
def allPathsHead : String :=
  "MATCH p = allShortestPaths((a:Device \x7bhostname: \"PARAM_DEVICE1\"\x7d)-[:HAS_INTERFACE|CONNECTED_TO*]-(b:Device \x7bhostname: \"PARAM_DEVICE2\"\x7d))\n"

/-- The shared part of both path templates after `RETURN`. -/
def pathQueryTail : String :=
  " [n IN nodes(p) |\n  CASE\n    WHEN \"Device\" IN labels(n) THEN n.hostname + \" (\" + coalesce(n.ip_address,\"\") + \")\"\n    WHEN \"Interface\" IN labels(n) THEN \"IF:\" + coalesce(n.name, n.id, \"unknown\")\n    ELSE \"unknown\"\n  END\n] AS path_nodes"

set_option maxRecDepth 400000 in
set_option maxHeartbeats 1000000 in
/-- Counterexample to claim C3 as stated: with the active snapshot
"2024-01-01T00:00:00" set, the catalog template `find_down_interfaces`
(whose body contains a `WHERE` clause before `RETURN`) is passed
through `_add_snapshot_filter` completely unchanged, and the executed
query mentions no snapshot id at all — its execution is not constrained
to the active snapshot. -/
theorem C3_counterexample :
    addSnapshotFilter (some "2024-01-01T00:00:00") findDownInterfacesQuery =
      findDownInterfacesQuery ∧
    containsSub findDownInterfacesQuery "snapshot_id" = false := by
  decide

set_option maxRecDepth 400000 in
set_option maxHeartbeats 1000000 in
/-- Claim C3 (amended): with a non-empty active snapshot set, the two
shortest-path templates are rewritten by inserting, immediately before
`RETURN`, a clause constraining every node visited by the path to carry
the active snapshot id or to carry no `snapshot_id` property at all
(untagged nodes still match); but not every catalog template is
constrained — a template whose body contains a `WHERE` clause before
`RETURN` (`find_down_interfaces`) and a template whose node variables
are not literally `d`/`i` (`show_topology`) execute with no snapshot
constraint whatsoever. -/
theorem C3_snapshot_scoping (s : String) (hs : s ≠ "") :
    addSnapshotFilter (some s) showShortestPathQuery =
      shortestPathHead ++
        (("WHERE all(n IN nodes(p) WHERE n.snapshot_id = \"" ++ s ++
          "\" OR NOT exists(n.snapshot_id)) ") ++
         ("RETURN" ++ pathQueryTail)) ∧
    addSnapshotFilter (some s) showAllPathsQuery =
      allPathsHead ++
        (("WHERE all(n IN nodes(p) WHERE n.snapshot_id = \"" ++ s ++
          "\" OR NOT exists(n.snapshot_id)) ") ++
         ("RETURN" ++ pathQueryTail)) ∧
    addSnapshotFilter (some s) findDownInterfacesQuery =
      findDownInterfacesQuery ∧
    addSnapshotFilter (some s) showTopologyQuery = showTopologyQuery := by
  refine ⟨?_, ?_, ?_, ?_⟩ <;>
    (simp only [addSnapshotFilter]; rw [if_neg hs]; rfl)

set_option maxRecDepth 400000 in
set_option maxHeartbeats 1000000 in
/-- Witness for C3 at the concrete snapshot id "SNAP". -/
theorem C3_snapshot_scoping_witness :
    addSnapshotFilter (some "SNAP") showShortestPathQuery =
      shortestPathHead ++
        (("WHERE all(n IN nodes(p) WHERE n.snapshot_id = \"" ++ "SNAP" ++
          "\" OR NOT exists(n.snapshot_id)) ") ++
         ("RETURN" ++ pathQueryTail)) ∧
    addSnapshotFilter (some "SNAP") showAllPathsQuery =
      allPathsHead ++
        (("WHERE all(n IN nodes(p) WHERE n.snapshot_id = \"" ++ "SNAP" ++
          "\" OR NOT exists(n.snapshot_id)) ") ++
         ("RETURN" ++ pathQueryTail)) ∧
    addSnapshotFilter (some "SNAP") findDownInterfacesQuery =
      findDownInterfacesQuery ∧
    addSnapshotFilter (some "SNAP") showTopologyQuery =
      showTopologyQuery := by
  exact C3_snapshot_scoping "SNAP" (by decide)

/-! ## Claim C6 — `ask` error behaviour -/

/-- Counterexample to claim C6 as stated: an unknown template name
returned by the classifier does not produce a validation-error result —
`select_template` raises a `ValueError` that propagates out of `ask`
(the embedded `ask` yields `Except.error`, not a structured result). -/
theorem C6_counterexample :
    ask none (fun _ => .ok []) (.parsed (some "nope") []) true true =
      .error "Unknown template: nope" := by
  rfl

/-- Claim C6 (amended): a graph-store failure is surfaced as a
structured result, not an exception: `execute_query` returns
`{success: false, error, results: [], count: 0}`, and `ask` (for any
classifier outcome naming a known template) returns a structured
response carrying the store error with empty results — but an unknown
template or unparseable classifier response raises a `ValueError` that
escapes `ask`, and a missing required parameter is not validated: the
query is executed with its placeholder unreplaced. -/
theorem C6_store_failure (sid : Option String) (k : String) (t : Template)
    (ps : List (String × String)) (e : String) (q : String)
    (h : lookupA queryTemplates k = some t) :
    executeQuery sid (fun _ => .error e) q =
      ExecResult.mk false [] 0 (some e) ∧
    ask sid (fun _ => .error e) (.parsed (some k) ps) true true =
      .ok (AskResponse.mk k ps (buildCypher t ps) (some []) (some 0)
        (some e)) := by
  constructor
  · simp [executeQuery]
  · simp [ask, selectTemplate, h, executeQuery]

/-- Witness for C6 at the `list_devices` template with a failing
store. -/
theorem C6_store_failure_witness :
    executeQuery none (fun _ => .error "Neo4j unreachable") "q" =
      ExecResult.mk false [] 0 (some "Neo4j unreachable") ∧
    ask none (fun _ => .error "Neo4j unreachable")
        (.parsed (some "list_devices") []) true true =
      .ok (AskResponse.mk "list_devices" []
        (buildCypher (Template.mk [] listDevicesQuery) []) (some [])
        (some 0) (some "Neo4j unreachable")) := by
  exact C6_store_failure none "list_devices" (Template.mk [] listDevicesQuery)
    [] "Neo4j unreachable" "q" (by decide)

/-! ## Ingestion projections (definitional) -/

theorem ingest_connectedTo_empty (s : String) (nd : NetworkData) :
    (ingest s nd emptyGraph).1.connectedTo =
      applyWrites [] (cdpWrites s nd
        (applyWrites [] (ifaceWrites s nd
          (applyWrites [] (devWrites s nd))))) := rfl

theorem ingest_ospf_empty (s : String) (nd : NetworkData) :
    (ingest s nd emptyGraph).1.ospfNeighbors =
      applyWrites [] (ospfWrites s nd
        (applyExtra nd (applyWrites [] (devWrites s nd)))) := rfl

theorem ingest_devices_empty (s : String) (nd : NetworkData) :
    (ingest s nd emptyGraph).1.devices =
      applyExtra nd (applyWrites [] (devWrites s nd)) := rfl

/-! ## Batch-lookup lemmas -/

/-- A successful `iface_by_name` lookup names a pair reported by the
batch. -/
theorem mem_ifaceByName_batch (nd : NetworkData) (h n : String)
    (hl : (lookupA (ifaceByName nd) (h, n)).isSome = true) :
    ∃ dd ∈ nd.devices, dd.hostname = h ∧
      ∃ i ∈ dd.interfaces, i.interface = n := by
  rw [lookup_isSome_eq_hasKey] at hl
  obtain ⟨w, hw, hw1⟩ :=
    (hasKey_applyWrites_nil (ifacePairWrites nd) (h, n)).mp hl
  simp only [ifacePairWrites, List.mem_flatMap, List.mem_map] at hw
  obtain ⟨dd, hdd, i, hi, heq⟩ := hw
  subst heq
  simp only at hw1
  rw [Prod.mk.injEq] at hw1
  exact ⟨dd, hdd, hw1.1, i, hi, hw1.2⟩

/-- Every bundle hostname is written by phase 1. -/
theorem exists_devWrite (s : String) (nd : NetworkData) {dd : DeviceData}
    (hdd : dd ∈ nd.devices) : ∃ w ∈ devWrites s nd, w.1 = dd.hostname := by
  unfold devWrites
  exact ⟨_, List.mem_map_of_mem _ hdd, rfl⟩

/-- After phase 1, every bundle hostname is a Device key. -/
theorem hasKey_phase1 (s : String) (nd : NetworkData)
    (g : List (String × DevProps)) {h : String}
    (hh : ∃ dd ∈ nd.devices, dd.hostname = h) :
    hasKey (applyWrites g (devWrites s nd)) h = true := by
  apply (hasKey_applyWrites g (devWrites s nd) h).mpr
  obtain ⟨dd, hdd, hdh⟩ := hh
  obtain ⟨w, hw, hw1⟩ := exists_devWrite s nd hdd
  exact Or.inr ⟨w, hw, by rw [hw1, hdh]⟩

/-- After phase 2 from an empty store, every batch interface pair is an
Interface node key. -/
theorem hasKey_phase2 (s : String) (nd : NetworkData)
    (devs : List (String × DevProps))
    (hdevs : ∀ dd ∈ nd.devices, hasKey devs dd.hostname = true)
    {h n : String}
    (hb : ∃ dd ∈ nd.devices, dd.hostname = h ∧
      ∃ i ∈ dd.interfaces, i.interface = n) :
    hasKey (applyWrites ([] : List (String × IfProps))
      (ifaceWrites s nd devs)) (ifaceId h n) = true := by
  apply (hasKey_applyWrites_nil _ _).mpr
  obtain ⟨dd, hdd, hh, i, hi, hn⟩ := hb
  refine ⟨(ifaceId dd.hostname i.interface, fun _ => mkIfProps s i), ?_,
    by rw [hh, hn]⟩
  unfold ifaceWrites
  apply List.mem_flatMap.mpr
  refine ⟨dd, List.mem_filter.mpr ⟨hdd, by simpa using hdevs dd hdd⟩, ?_⟩
  exact List.mem_map_of_mem _ hi

/-- The phase-5 guard, spelled out as a proposition. -/
theorem cdpGuard_iff (nd : NetworkData) (h : String) (c : CdpRec) :
    cdpGuard nd h c = true ↔
      (c.local_interface ≠ "" ∧ cdpStrip c.neighbor_device ≠ "" ∧
       c.neighbor_interface ≠ "" ∧
       (lookupA (ifaceByName nd) (h, c.local_interface)).isSome = true ∧
       (lookupA (ifaceByName nd)
         (cdpStrip c.neighbor_device, c.neighbor_interface)).isSome
         = true) := by
  unfold cdpGuard
  simp [and_assoc]

/-! ## Claim C1 — CONNECTED_TO creation condition -/

/-- A batch in which the empty-string guard of phase 5 diverges from
pure interface-list membership: device R1 reports an interface whose
name is the empty string and a CDP record naming it on both sides. -/
def emptyNameNd : NetworkData :=
  NetworkData.mk "2024-01-01T00:00:00"
    [DeviceData.mk "R1" "router" ""
      [Iface.mk "" "" "" "" "" ""]
      [CdpRec.mk "" "R1" "" ""]
      [] "[]" "[]" "\x7b\x7d" "[]"]

/-- Counterexample to claim C1 as stated: in `emptyNameNd`, the CDP
record's local interface name ("") is present in the reporting device's
own interface list and the remote interface name ("") is present in the
named neighbor device's interface list (after suffix stripping), so the
claim requires a CONNECTED_TO edge and a `cdp_links` count of 1 — but
the code's truthiness guard (`if not local_name ...`) skips the record:
no edge is created and `cdp_links` is 0. -/
theorem C1_counterexample :
    (∃ dd ∈ emptyNameNd.devices, ∃ c ∈ dd.cdp_neighbors,
      (lookupA (ifaceByName emptyNameNd)
        (dd.hostname, c.local_interface)).isSome = true ∧
      (lookupA (ifaceByName emptyNameNd)
        (cdpStrip c.neighbor_device, c.neighbor_interface)).isSome
        = true) ∧
    (ingest "2024-01-01T00:00:00" emptyNameNd emptyGraph).1.connectedTo
      = [] ∧
    (ingest "2024-01-01T00:00:00" emptyNameNd emptyGraph).2.cdp_links
      = 0 := by
  decide

/-- Claim C1 (amended): starting from an empty store, a CONNECTED_TO
edge between two interface ids exists after ingestion iff some CDP
record of the batch has a non-empty local interface name, a non-empty
neighbor device name after domain-suffix stripping, and a non-empty
remote interface name, and both the (reporting hostname, local name)
and (stripped neighbor, remote name) pairs are present in the
interface lookup built from the same batch; and `cdp_links` counts
exactly the records satisfying that condition — a record failing any
part of it produces no edge and no count increment. -/
theorem C1_cdp_link_characterization (s : String) (nd : NetworkData)
    (lid rid : String) :
    (hasKey (ingest s nd emptyGraph).1.connectedTo (lid, rid) = true ↔
      ∃ dd ∈ nd.devices, ∃ c ∈ dd.cdp_neighbors,
        (c.local_interface ≠ "" ∧ cdpStrip c.neighbor_device ≠ "" ∧
         c.neighbor_interface ≠ "" ∧
         (lookupA (ifaceByName nd)
           (dd.hostname, c.local_interface)).isSome = true ∧
         (lookupA (ifaceByName nd)
           (cdpStrip c.neighbor_device, c.neighbor_interface)).isSome
           = true) ∧
        lid = ifaceId dd.hostname c.local_interface ∧
        rid = ifaceId (cdpStrip c.neighbor_device) c.neighbor_interface) ∧
    (ingest s nd emptyGraph).2.cdp_links =
      List.countP (fun hc => cdpGuard nd hc.1 hc.2) (cdpRecords nd) := by
  constructor
  · rw [ingest_connectedTo_empty]
    constructor
    · intro hk
      obtain ⟨w, hw, hw1⟩ := (hasKey_applyWrites_nil _ _).mp hk
      simp only [cdpWrites, List.mem_map] at hw
      obtain ⟨hc, hhc, heq⟩ := hw
      obtain ⟨hc1, _⟩ := List.mem_filter.mp hhc
      obtain ⟨hrec, hguard⟩ := List.mem_filter.mp hc1
      simp only [cdpRecords, List.mem_flatMap, List.mem_map] at hrec
      obtain ⟨dd, hdd, c, hcmem, hpair⟩ := hrec
      refine ⟨dd, hdd, c, hcmem, ?_, ?_, ?_⟩
      · have hg : cdpGuard nd hc.1 hc.2 = true := by simpa using hguard
        rw [← hpair] at hg
        exact (cdpGuard_iff nd dd.hostname c).mp hg
      · have : w.1 = cdpKey hc.1 hc.2 := by rw [← heq]
        rw [hw1] at this
        rw [← hpair] at this
        have := congrArg Prod.fst this
        simpa [cdpKey] using this
      · have : w.1 = cdpKey hc.1 hc.2 := by rw [← heq]
        rw [hw1] at this
        rw [← hpair] at this
        have := congrArg Prod.snd this
        simpa [cdpKey] using this
    · rintro ⟨dd, hdd, c, hcmem, hg, hlid, hrid⟩
      apply (hasKey_applyWrites_nil _ _).mpr
      have hguard : cdpGuard nd dd.hostname c = true :=
        (cdpGuard_iff nd dd.hostname c).mpr hg
      have hdevs : ∀ dd2 ∈ nd.devices,
          hasKey (applyWrites ([] : List (String × DevProps))
            (devWrites s nd)) dd2.hostname = true :=
        fun dd2 hdd2 => hasKey_phase1 s nd [] ⟨dd2, hdd2, rfl⟩
      have hloc := mem_ifaceByName_batch nd dd.hostname c.local_interface
        hg.2.2.2.1
      have hrem := mem_ifaceByName_batch nd (cdpStrip c.neighbor_device)
        c.neighbor_interface hg.2.2.2.2
      have hk1 := hasKey_phase2 s nd _ hdevs hloc
      have hk2 := hasKey_phase2 s nd _ hdevs hrem
      refine ⟨(cdpKey dd.hostname c, fun _ =>
        CdpProps.mk "CDP" c.neighbor_ip s), ?_, ?_⟩
      · unfold cdpWrites
        refine List.mem_map.mpr ⟨(dd.hostname, c), ?_, rfl⟩
        apply List.mem_filter.mpr
        constructor
        · apply List.mem_filter.mpr
          refine ⟨?_, by simpa using hguard⟩
          simp only [cdpRecords, List.mem_flatMap, List.mem_map]
          exact ⟨dd, hdd, c, hcmem, rfl⟩
        · simp only [cdpKey]
          simpa using And.intro hk1 hk2
      · simp only [cdpKey]
        rw [hlid, hrid]
  · show cdpCount nd = _
    unfold cdpCount
    rw [List.countP_eq_length_filter]

/-! ## Claim C5 — OSPF_NEIGHBOR creation condition -/

/-- A successful `device_by_ip` lookup names a hostname reported by
some device of the batch (whose self-reported address is the looked-up
ip). -/
theorem deviceByIp_some (nd : NetworkData) (a h : String)
    (hl : lookupA (deviceByIp nd) a = some h) :
    ∃ dd ∈ nd.devices, dd.hostname = h ∧ dd.ip_address = a := by
  obtain ⟨kv, hkv, hk1, hk2⟩ := lookupA_eq_some hl
  rcases mem_applyWrites _ _ _ hkv with hnil | ⟨w, hw, hw1, o, ho⟩
  · cases hnil
  · simp only [ipWrites, List.mem_map] at hw
    obtain ⟨dd, hdd, heq⟩ := hw
    subst heq
    simp only at hw1 ho
    exact ⟨dd, (List.mem_filter.mp hdd).1, ho.symm.trans hk2,
      hw1.trans hk1⟩

/-- The phase-6 guard, spelled out as a proposition. -/
theorem ospfGuard_iff (nd : NetworkData) (c : OspfRec) :
    ospfGuard nd c = true ↔
      ∃ h, lookupA (deviceByIp nd) c.address = some h ∧ h ≠ "" := by
  unfold ospfGuard
  cases hl : lookupA (deviceByIp nd) c.address with
  | none => simp
  | some h => simp

/-- `applyExtra` is a key-preserving in-place update. -/
theorem hasKey_applyExtra (nd : NetworkData)
    (devs : List (String × DevProps)) (k : String) :
    hasKey (applyExtra nd devs) k = hasKey devs k := by
  unfold applyExtra
  induction nd.devices generalizing devs with
  | nil => rfl
  | cons dd t ih =>
    simp only [List.foldl_cons]
    rw [ih]
    by_cases hsw : dd.dtype = "switch"
    · rw [if_pos hsw]
      unfold hasKey
      rw [List.any_map]
      apply congrArg
      funext kv
      by_cases hk : kv.1 = dd.hostname <;> simp [Function.comp, hk]
    · rw [if_neg hsw]

/-- A batch in which the truthiness guard of phase 6 diverges from pure
"address equals some device's self-reported ip": R1 reports an OSPF
neighbor at address "" and R2 self-reports the ip_address "". -/
def emptyAddrNd : NetworkData :=
  NetworkData.mk "B"
    [DeviceData.mk "R1" "router" "10.0.0.1" [] []
      [OspfRec.mk "" "" "" "" "" ""] "[]" "[]" "\x7b\x7d" "[]",
     DeviceData.mk "R2" "router" "" [] [] [] "[]" "[]" "\x7b\x7d" "[]"]

/-- Counterexample to claim C5 as stated: in `emptyAddrNd`, the OSPF
record's address ("") equals the self-reported `ip_address` of device
R2 in the same batch, so the claim requires an OSPF_NEIGHBOR edge and
`ospf_links = 1` — but devices with a falsy ip are never indexed in
`device_by_ip`, so the code creates no edge and reports 0. -/
theorem C5_counterexample :
    (∃ dd ∈ emptyAddrNd.devices, ∃ o ∈ dd.ospf_neighbors,
      ∃ dd2 ∈ emptyAddrNd.devices, dd2.ip_address = o.address) ∧
    (ingest "B" emptyAddrNd emptyGraph).1.ospfNeighbors = [] ∧
    (ingest "B" emptyAddrNd emptyGraph).2.ospf_links = 0 := by
  decide

/-- Claim C5 (amended): starting from an empty store, an OSPF_NEIGHBOR
edge from `lh` to `rh` exists after ingestion iff some OSPF record of
the batch, reported by the device named `lh`, has an address that the
batch-built IP→hostname map (indexing only devices with a non-empty
`ip_address`, last device winning per ip) resolves to the non-empty
hostname `rh`; `ospf_links` counts exactly the records whose address
resolves to a truthy hostname; and no placeholder device is ever
stored — the Device keys after ingestion are exactly the batch
hostnames. -/
theorem C5_ospf_link_characterization (s : String) (nd : NetworkData)
    (lh rh : String) :
    (hasKey (ingest s nd emptyGraph).1.ospfNeighbors (lh, rh) = true ↔
      ∃ dd ∈ nd.devices, ∃ o ∈ dd.ospf_neighbors,
        lookupA (deviceByIp nd) o.address = some rh ∧ rh ≠ "" ∧
        lh = dd.hostname) ∧
    (ingest s nd emptyGraph).2.ospf_links =
      List.countP (fun ho => ospfGuard nd ho.2) (ospfRecords nd) ∧
    (∀ h, hasKey (ingest s nd emptyGraph).1.devices h = true ↔
      ∃ dd ∈ nd.devices, dd.hostname = h) := by
  refine ⟨?_, ?_, ?_⟩
  · rw [ingest_ospf_empty]
    constructor
    · intro hk
      obtain ⟨w, hw, hw1⟩ := (hasKey_applyWrites_nil _ _).mp hk
      simp only [ospfWrites, List.mem_map] at hw
      obtain ⟨ho, hho, heq⟩ := hw
      obtain ⟨ho1, _⟩ := List.mem_filter.mp hho
      obtain ⟨hrec, hguard⟩ := List.mem_filter.mp ho1
      simp only [ospfRecords, List.mem_flatMap, List.mem_map] at hrec
      obtain ⟨dd, hdd, o, homem, hpair⟩ := hrec
      have hg : ospfGuard nd ho.2 = true := by simpa using hguard
      rw [← hpair] at hg
      obtain ⟨h0, hl0, hn0⟩ := (ospfGuard_iff nd o).mp hg
      have hkey : w.1 = ospfKey nd ho.1 ho.2 := by rw [← heq]
      rw [hw1, ← hpair] at hkey
      have h1 := congrArg Prod.fst hkey
      have h2 := congrArg Prod.snd hkey
      simp only [ospfKey] at h1 h2
      rw [hl0] at h2
      simp only [Option.getD_some] at h2
      refine ⟨dd, hdd, o, homem, ?_, ?_, h1⟩
      · rw [h2]
        exact hl0
      · rw [h2]
        exact hn0
    · rintro ⟨dd, hdd, o, homem, hl0, hn0, hlh⟩
      apply (hasKey_applyWrites_nil _ _).mpr
      have hguard : ospfGuard nd o = true :=
        (ospfGuard_iff nd o).mpr ⟨rh, hl0, hn0⟩
      have hdevs1 : ∀ dd2 ∈ nd.devices,
          hasKey (applyWrites ([] : List (String × DevProps))
            (devWrites s nd)) dd2.hostname = true :=
        fun dd2 hdd2 => hasKey_phase1 s nd [] ⟨dd2, hdd2, rfl⟩
      obtain ⟨ddr, hddr, hrh, _⟩ := deviceByIp_some nd o.address rh hl0
      refine ⟨(ospfKey nd dd.hostname o, fun _ =>
        OspfProps.mk o.neighbor_id o.state o.priority o.dead_time
          o.interface o.address s), ?_, ?_⟩
      · unfold ospfWrites
        refine List.mem_map.mpr ⟨(dd.hostname, o), ?_, rfl⟩
        apply List.mem_filter.mpr
        constructor
        · apply List.mem_filter.mpr
          refine ⟨?_, by simpa using hguard⟩
          simp only [ospfRecords, List.mem_flatMap, List.mem_map]
          exact ⟨dd, hdd, o, homem, rfl⟩
        · have hk1 : hasKey (applyExtra nd (applyWrites []
              (devWrites s nd))) dd.hostname = true := by
            rw [hasKey_applyExtra]
            exact hdevs1 dd hdd
          have hk2 : hasKey (applyExtra nd (applyWrites []
              (devWrites s nd))) rh = true := by
            rw [hasKey_applyExtra]
            exact hasKey_phase1 s nd [] ⟨ddr, hddr, hrh⟩
          simp only [ospfKey, hl0]
          simpa using And.intro hk1 hk2
      · simp only [ospfKey, hl0]
        rw [hlh]
        rfl
  · show ospfCount nd = _
    unfold ospfCount
    rw [List.countP_eq_length_filter]
  · intro h
    rw [ingest_devices_empty, hasKey_applyExtra]
    rw [hasKey_applyWrites_nil]
    constructor
    · rintro ⟨w, hw, hw1⟩
      simp only [devWrites, List.mem_map] at hw
      obtain ⟨dd, hdd, heq⟩ := hw
      subst heq
      exact ⟨dd, hdd, hw1⟩
    · rintro ⟨dd, hdd, hdh⟩
      obtain ⟨w, hw, hw1⟩ := exists_devWrite s nd hdd
      exact ⟨w, hw, by rw [hw1, hdh]⟩

/-! ## Claim C2 — re-ingestion -/

theorem ingest_graph_devices (s : String) (nd : NetworkData)
    (g : GraphState) :
    (ingest s nd g).1.devices =
      applyExtra nd (applyWrites g.devices (devWrites s nd)) := rfl

theorem ingest_graph_interfaces (s : String) (nd : NetworkData)
    (g : GraphState) :
    (ingest s nd g).1.interfaces =
      applyWrites g.interfaces
        (ifaceWrites s nd (applyWrites g.devices (devWrites s nd))) := rfl

theorem ingest_graph_hasInterface (s : String) (nd : NetworkData)
    (g : GraphState) :
    (ingest s nd g).1.hasInterface =
      applyWrites g.hasInterface
        (hasIfWrites nd (applyWrites g.devices (devWrites s nd))) := rfl

theorem ingest_graph_connectedTo (s : String) (nd : NetworkData)
    (g : GraphState) :
    (ingest s nd g).1.connectedTo =
      applyWrites g.connectedTo
        (cdpWrites s nd (applyWrites g.interfaces
          (ifaceWrites s nd (applyWrites g.devices (devWrites s nd)))))
      := rfl

theorem ingest_graph_ospfNeighbors (s : String) (nd : NetworkData)
    (g : GraphState) :
    (ingest s nd g).1.ospfNeighbors =
      applyWrites g.ospfNeighbors
        (ospfWrites s nd (applyExtra nd
          (applyWrites g.devices (devWrites s nd)))) := rfl

theorem ingest_graph_snapshots (s : String) (nd : NetworkData)
    (g : GraphState) :
    (ingest s nd g).1.snapshots =
      g.snapshots ++ [(s, nd.devices.length)] := rfl

theorem ingest_counts (s : String) (nd : NetworkData) (g : GraphState) :
    (ingest s nd g).2 =
      IngestCounts.mk nd.devices.length
        (nd.devices.map fun dd => dd.interfaces.length).sum
        (cdpCount nd) (ospfCount nd) := rfl

theorem emptyGraph_devices : emptyGraph.devices = [] := rfl

theorem emptyGraph_interfaces : emptyGraph.interfaces = [] := rfl

theorem emptyGraph_hasInterface : emptyGraph.hasInterface = [] := rfl

theorem emptyGraph_connectedTo : emptyGraph.connectedTo = [] := rfl

theorem emptyGraph_ospfNeighbors : emptyGraph.ospfNeighbors = [] := rfl

theorem emptyGraph_snapshots : emptyGraph.snapshots = [] := rfl

/-- Phase 3 updates in place and never changes the node count. -/
theorem length_applyExtra (nd : NetworkData)
    (devs : List (String × DevProps)) :
    (applyExtra nd devs).length = devs.length := by
  unfold applyExtra
  induction nd.devices generalizing devs with
  | nil => rfl
  | cons dd t ih =>
    simp only [List.foldl_cons]
    rw [ih]
    by_cases hsw : dd.dtype = "switch"
    · rw [if_pos hsw, List.length_map]
    · rw [if_neg hsw]

/-- Key membership after a write sequence, as a Bool equation. -/
theorem hasKey_applyWrites_bool {K V : Type} [DecidableEq K]
    (l : List (K × V)) (ws : List (K × (Option V → V))) (k : K) :
    hasKey (applyWrites l ws) k =
      (hasKey l k || ws.any (fun w => w.1 = k)) := by
  apply boolEq_of_iff
  rw [hasKey_applyWrites]
  simp [List.any_eq_true]

/-- Every written key is present after writing over an empty store. -/
theorem hasKey_writes_nil {K V : Type} [DecidableEq K]
    (ws : List (K × (Option V → V))) (w : K × (Option V → V))
    (hw : w ∈ ws) :
    hasKey (applyWrites ([] : List (K × V)) ws) w.1 = true :=
  (hasKey_applyWrites_nil ws w.1).mpr ⟨w, hw, rfl⟩

/-- Replaying a write sequence over its own output leaves the key set
unchanged. -/
theorem hasKey_reapply_eq {K V : Type} [DecidableEq K]
    (ws : List (K × (Option V → V))) (k : K) :
    hasKey (applyWrites (applyWrites ([] : List (K × V)) ws) ws) k =
      hasKey (applyWrites ([] : List (K × V)) ws) k := by
  rw [hasKey_applyWrites_bool, hasKey_applyWrites_bool]
  have h0 : hasKey ([] : List (K × V)) k = false := rfl
  rw [h0]
  simp

/-- After any phase-1 pass, the device-existence filter of phase 2
keeps every bundle. -/
theorem filter_hasKey_devices (s : String) (nd : NetworkData)
    (g : List (String × DevProps)) :
    nd.devices.filter
      (fun dd => hasKey (applyWrites g (devWrites s nd)) dd.hostname) =
      nd.devices := by
  apply List.filter_eq_self.mpr
  intro dd hdd
  simpa using hasKey_phase1 s nd g ⟨dd, hdd, rfl⟩

theorem ifaceWrites_congr (s : String) (nd : NetworkData)
    (gA gB : List (String × DevProps)) :
    ifaceWrites s nd (applyWrites gA (devWrites s nd)) =
      ifaceWrites s nd (applyWrites gB (devWrites s nd)) := by
  unfold ifaceWrites
  rw [filter_hasKey_devices s nd gA, filter_hasKey_devices s nd gB]

theorem hasIfWrites_congr (s : String) (nd : NetworkData)
    (gA gB : List (String × DevProps)) :
    hasIfWrites nd (applyWrites gA (devWrites s nd)) =
      hasIfWrites nd (applyWrites gB (devWrites s nd)) := by
  unfold hasIfWrites
  rw [filter_hasKey_devices s nd gA, filter_hasKey_devices s nd gB]

theorem cdpWrites_congr (s : String) (nd : NetworkData)
    (ifsA ifsB : List (String × IfProps))
    (h : ∀ k, hasKey ifsA k = hasKey ifsB k) :
    cdpWrites s nd ifsA = cdpWrites s nd ifsB := by
  unfold cdpWrites
  congr 1
  apply List.filter_congr
  intro hc _
  rw [h, h]

theorem ospfWrites_congr (s : String) (nd : NetworkData)
    (devsA devsB : List (String × DevProps))
    (h : ∀ k, hasKey devsA k = hasKey devsB k) :
    ospfWrites s nd devsA = ospfWrites s nd devsB := by
  unfold ospfWrites
  congr 1
  apply List.filter_congr
  intro ho _
  rw [h, h]

/-- The Device key set after a second phase-1/phase-3 pass equals the
key set after the first. -/
theorem hasKey_devs_second (s : String) (nd : NetworkData) (k : String) :
    hasKey (applyExtra nd (applyWrites
        (applyExtra nd (applyWrites [] (devWrites s nd)))
        (devWrites s nd))) k =
      hasKey (applyExtra nd (applyWrites [] (devWrites s nd))) k := by
  rw [hasKey_applyExtra, hasKey_applyWrites_bool, hasKey_applyExtra,
    hasKey_applyWrites_bool]
  have h0 : hasKey ([] : List (String × DevProps)) k = false := rfl
  rw [h0]
  simp

/-- A snapshot id is loaded right after it was ingested. -/
theorem isLoadedG_ingest (s : String) (nd : NetworkData) (g : GraphState) :
    isLoadedG (ingest s nd g).1 s = true := by
  unfold isLoadedG
  rw [ingest_graph_snapshots]
  simp

/-- Counterexample to claim C2 as stated: re-running the raw ingestion
phases for the same snapshot id duplicates the Snapshot node (phase 0
is a Cypher `CREATE`, not an upsert), so the Snapshot-node count after
two runs is 2, not 1. -/
theorem C2_counterexample :
    (ingest "A" sampleNd (ingest "A" sampleNd emptyGraph).1).1.snapshots
      = [("A", 2), ("A", 2)] ∧
    (ingest "A" sampleNd emptyGraph).1.snapshots = [("A", 2)] := by
  decide

/-- Claim C2 (amended): every write of the ingestion phases except the
Snapshot-node creation is an upsert keyed by a natural key, so running
the raw ingestion twice with the same snapshot id and bundles leaves
the Device, Interface, HAS_INTERFACE, CONNECTED_TO and OSPF_NEIGHBOR
counts identical to a single run and returns the same summary counts —
but the Snapshot node is `CREATE`d, not merged, so the second raw run
adds one duplicate Snapshot node.  Full idempotence (Snapshot nodes
included) holds for `load_snapshot`, whose already-loaded check skips
ingestion entirely on the second call. -/
theorem C2_reingestion (s : String) (nd : NetworkData) :
    (ingest s nd (ingest s nd emptyGraph).1).1.devices.length =
      (ingest s nd emptyGraph).1.devices.length ∧
    (ingest s nd (ingest s nd emptyGraph).1).1.interfaces.length =
      (ingest s nd emptyGraph).1.interfaces.length ∧
    (ingest s nd (ingest s nd emptyGraph).1).1.hasInterface.length =
      (ingest s nd emptyGraph).1.hasInterface.length ∧
    (ingest s nd (ingest s nd emptyGraph).1).1.connectedTo.length =
      (ingest s nd emptyGraph).1.connectedTo.length ∧
    (ingest s nd (ingest s nd emptyGraph).1).1.ospfNeighbors.length =
      (ingest s nd emptyGraph).1.ospfNeighbors.length ∧
    (ingest s nd (ingest s nd emptyGraph).1).1.snapshots.length =
      (ingest s nd emptyGraph).1.snapshots.length + 1 ∧
    (ingest s nd (ingest s nd emptyGraph).1).2 =
      (ingest s nd emptyGraph).2 ∧
    (∀ (b : Bool) (st : ManagerState),
      (loadSnapshot nd b (loadSnapshot nd b st).1).1.graph =
        (loadSnapshot nd b st).1.graph) := by
  simp only [ingest_graph_devices, ingest_graph_interfaces,
    ingest_graph_hasInterface, ingest_graph_connectedTo,
    ingest_graph_ospfNeighbors, ingest_graph_snapshots, ingest_counts,
    emptyGraph_devices, emptyGraph_interfaces, emptyGraph_hasInterface,
    emptyGraph_connectedTo, emptyGraph_ospfNeighbors,
    emptyGraph_snapshots]
  refine ⟨?_, ?_, ?_, ?_, ?_, ?_, trivial, ?_⟩
  · have hkeys : ∀ w ∈ devWrites s nd,
        hasKey (applyExtra nd (applyWrites [] (devWrites s nd))) w.1
          = true := by
      intro w hw
      rw [hasKey_applyExtra]
      exact hasKey_writes_nil _ w hw
    rw [length_applyExtra, length_applyWrites _ _ hkeys,
      length_applyExtra]
  · rw [ifaceWrites_congr s nd
      (applyExtra nd (applyWrites [] (devWrites s nd))) []]
    apply length_applyWrites
    intro w hw
    exact hasKey_writes_nil _ w hw
  · rw [hasIfWrites_congr s nd
      (applyExtra nd (applyWrites [] (devWrites s nd))) []]
    apply length_applyWrites
    intro w hw
    exact hasKey_writes_nil _ w hw
  · rw [ifaceWrites_congr s nd
      (applyExtra nd (applyWrites [] (devWrites s nd))) []]
    rw [cdpWrites_congr s nd
      (applyWrites (applyWrites []
        (ifaceWrites s nd (applyWrites [] (devWrites s nd))))
        (ifaceWrites s nd (applyWrites [] (devWrites s nd))))
      (applyWrites [] (ifaceWrites s nd (applyWrites [] (devWrites s nd))))
      (fun k => hasKey_reapply_eq _ k)]
    apply length_applyWrites
    intro w hw
    exact hasKey_writes_nil _ w hw
  · rw [ospfWrites_congr s nd
      (applyExtra nd (applyWrites
        (applyExtra nd (applyWrites [] (devWrites s nd)))
        (devWrites s nd)))
      (applyExtra nd (applyWrites [] (devWrites s nd)))
      (fun k => hasKey_devs_second s nd k)]
    apply length_applyWrites
    intro w hw
    exact hasKey_writes_nil _ w hw
  · simp
  · intro b st
    by_cases h : isLoadedG st.graph nd.snapshot_id = true
    · simp [loadSnapshot, h]
    · simp [loadSnapshot, h, isLoadedG_ingest]

end AIOps
